import Mathlib

/-!
Shallow embedding of the rtkit client binding (src/lib.rs) and verification
of its specification claims.

The binding talks to a D-Bus broker through a blocking zbus connection.  We
model the connection as a pure oracle from a method call (destination, object
path, interface, member, serialized positional arguments) to a reply: either a
message body or a zbus error.  Each operation of the binding is translated to
a Lean function that returns its outcome, the list of method calls it issued
on the connection (in order), and the client state afterwards.  Rust panics
(`.unwrap()` on an `Err`) are modelled by an explicit `panicked` outcome,
distinct from returning an error result.
-/

/-- Wire-level values appearing in method-call arguments and in variant-wrapped
property replies, mirroring the zvariant `Value` cases this crate can touch.
`i32V`/`i64V` carry the signed 32/64-bit payload as an `Int`; `u32V`/`u64V`
carry the unsigned payload as a `Nat`. -/
inductive DBusValue : Type
  | i32V (n : Int)
  | i64V (n : Int)
  | u32V (n : Nat)
  | u64V (n : Nat)
  | strV (s : String)
  deriving DecidableEq, Repr

/-- The body of a reply message, as seen by the typed deserializers the crate
invokes: a single variant-wrapped value (a `Properties.Get` reply), an array of
service-name strings (a `ListNames` reply), an empty body (an action-call
reply), or anything that deserializes as neither of the expected types. -/
inductive MessageBody : Type
  | variantBody (v : DBusValue)
  | namesBody (names : List String)
  | emptyBody
  | malformed
  deriving DecidableEq, Repr

/-- Errors of the zbus transport layer as the crate can observe them:
an explicit error reply from the remote peer (name and message preserved),
an input/output transport failure, or a (de)serialization failure. -/
inductive ZbusError : Type
  | methodError (name msg : String)
  | inputOutput
  | variantError
  deriving DecidableEq, Repr

/-- The crate surfaces every failure as `anyhow::Error`; all errors it can
produce originate from zbus, so the error channel wraps a `ZbusError`. -/
inductive RtError : Type
  | zbus (e : ZbusError)
  deriving DecidableEq, Repr

/-- Result of running one operation of the binding: a value, an error result,
or abnormal termination (a Rust panic, which is not a returned result). -/
inductive RtOutcome (α : Type) : Type
  | ok (a : α)
  | error (e : RtError)
  | panicked
  deriving DecidableEq, Repr

/-- One method call as handed to `Connection::call_method`. -/
structure MethodCall : Type where
  destination : Option String
  path : String
  interface : Option String
  member : String
  args : List DBusValue
  deriving DecidableEq, Repr

/-- The bus connection, modelled as a pure oracle: every issued method call is
answered by a message body or fails with a zbus error. -/
def Bus : Type := MethodCall → Except ZbusError MessageBody

/-- Typed deserialization of a reply body as a variant-wrapped value
(`body.deserialize::<Value>()`): succeeds exactly on a variant body. -/
def deserializeVariant : MessageBody → Except ZbusError DBusValue
  | MessageBody.variantBody v => Except.ok v
  | _ => Except.error ZbusError.variantError

/-- Typed deserialization of a reply body as an array of strings
(`body.deserialize::<Vec<String>>()`): succeeds exactly on a names body. -/
def deserializeNames : MessageBody → Except ZbusError (List String)
  | MessageBody.namesBody names => Except.ok names
  | _ => Except.error ZbusError.variantError

/-- Conversion `i32::try_from(&value)` of zvariant: succeeds exactly when the
value is the `I32` case, with no numeric coercion from other widths. -/
def i32TryFrom : DBusValue → Option Int
  | DBusValue.i32V n => some n
  | _ => none

/-- Conversion `i64::try_from(&value)` of zvariant: succeeds exactly when the
value is the `I64` case, with no numeric coercion from other widths. -/
def i64TryFrom : DBusValue → Option Int
  | DBusValue.i64V n => some n
  | _ => none

/-- Constant `RTKIT_OBJECT_PATH` of src/lib.rs. -/
def RTKIT_OBJECT_PATH : String := "/org/freedesktop/RealtimeKit1"

/-- Constant `RTKIT_SERVICE_NAME` of src/lib.rs. -/
def RTKIT_SERVICE_NAME : String := "org.freedesktop.RealtimeKit1"

/-- Constant `RTKIT_INTERFACE` of src/lib.rs. -/
def RTKIT_INTERFACE : String := "org.freedesktop.RealtimeKit1"

/-- The `ListNames` call issued by `is_rtkit_available`. -/
def listNamesCall : MethodCall :=
  { destination := some "org.freedesktop.DBus"
    path := "/org/freedesktop/DBus"
    interface := some "org.freedesktop.DBus"
    member := "ListNames"
    args := [] }

/-- Function `is_rtkit_available` of src/lib.rs: issues `ListNames` on the bus
directory and reports whether the broker name is in the returned list.
Returns the zbus result together with the calls issued. -/
def is_rtkit_available (connection : Bus) :
    Except ZbusError Bool × List MethodCall :=
  match connection listNamesCall with
  | Except.ok message =>
      match deserializeNames message with
      | Except.ok names =>
          (Except.ok (names.contains "org.freedesktop.RealtimeKit1"), [listNamesCall])
      | Except.error e => (Except.error e, [listNamesCall])
  | Except.error e => (Except.error e, [listNamesCall])

/-- The state of a constructed `RTKit` client: it wraps exactly one bus
connection. -/
structure RTKitState : Type where
  connection : Bus

/-- Result of one operation on a client: the outcome returned to the caller,
the method calls issued on the connection (in order), and the client state
after the operation. -/
structure CallResult (α : Type) : Type where
  outcome : RtOutcome α
  sent : List MethodCall
  post : RTKitState

/-- Constructor `RTKit::new` of src/lib.rs.  `Connection::system()` is the
transport bootstrap, external to the crate, so its result is a parameter.
Note the source writes `is_rtkit_available(&connection)?;` — the `?` operator
propagates only the error case and discards the returned boolean. -/
def RTKit.new (sys : Except ZbusError Bus) :
    Except RtError RTKitState × List MethodCall :=
  match sys with
  | Except.error e => (Except.error (RtError.zbus e), [])
  | Except.ok connection =>
      match is_rtkit_available connection with
      | (Except.ok _avail, sent) => (Except.ok { connection := connection }, sent)
      | (Except.error e, sent) => (Except.error (RtError.zbus e), sent)

/-- The `Properties.Get` call issued by `max_realtime_priority`. -/
def maxRealtimePriorityCall : MethodCall :=
  { destination := some RTKIT_SERVICE_NAME
    path := RTKIT_OBJECT_PATH
    interface := some "org.freedesktop.DBus.Properties"
    member := "Get"
    args := [DBusValue.strV "org.freedesktop.RealtimeKit1",
             DBusValue.strV "MaxRealtimePriority"] }

/-- Method `RTKit::max_realtime_priority` of src/lib.rs.  On a successful
call it deserializes the body as a variant and converts with
`i32::try_from(&value).unwrap()`: a failed conversion panics. -/
def RTKit.max_realtime_priority (self : RTKitState) : CallResult Int :=
  match self.connection maxRealtimePriorityCall with
  | Except.ok message =>
      match deserializeVariant message with
      | Except.ok value =>
          match i32TryFrom value with
          | some n =>
              { outcome := RtOutcome.ok n, sent := [maxRealtimePriorityCall], post := self }
          | none =>
              { outcome := RtOutcome.panicked, sent := [maxRealtimePriorityCall], post := self }
      | Except.error e =>
          { outcome := RtOutcome.error (RtError.zbus e), sent := [maxRealtimePriorityCall], post := self }
  | Except.error e =>
      { outcome := RtOutcome.error (RtError.zbus e), sent := [maxRealtimePriorityCall], post := self }

/-- The `Properties.Get` call issued by `min_nice_level`. -/
def minNiceLevelCall : MethodCall :=
  { destination := some RTKIT_SERVICE_NAME
    path := RTKIT_OBJECT_PATH
    interface := some "org.freedesktop.DBus.Properties"
    member := "Get"
    args := [DBusValue.strV "org.freedesktop.RealtimeKit1",
             DBusValue.strV "MinNiceLevel"] }

/-- Method `RTKit::min_nice_level` of src/lib.rs. -/
def RTKit.min_nice_level (self : RTKitState) : CallResult Int :=
  match self.connection minNiceLevelCall with
  | Except.ok message =>
      match deserializeVariant message with
      | Except.ok value =>
          match i32TryFrom value with
          | some n =>
              { outcome := RtOutcome.ok n, sent := [minNiceLevelCall], post := self }
          | none =>
              { outcome := RtOutcome.panicked, sent := [minNiceLevelCall], post := self }
      | Except.error e =>
          { outcome := RtOutcome.error (RtError.zbus e), sent := [minNiceLevelCall], post := self }
  | Except.error e =>
      { outcome := RtOutcome.error (RtError.zbus e), sent := [minNiceLevelCall], post := self }

/-- The `Properties.Get` call issued by `rttime_usec_max`. -/
def rttimeUsecMaxCall : MethodCall :=
  { destination := some RTKIT_SERVICE_NAME
    path := RTKIT_OBJECT_PATH
    interface := some "org.freedesktop.DBus.Properties"
    member := "Get"
    args := [DBusValue.strV "org.freedesktop.RealtimeKit1",
             DBusValue.strV "RTTimeUSecMax"] }

/-- Method `RTKit::rttime_usec_max` of src/lib.rs: as the two i32 accessors,
but converting with `i64::try_from(&value).unwrap()`. -/
def RTKit.rttime_usec_max (self : RTKitState) : CallResult Int :=
  match self.connection rttimeUsecMaxCall with
  | Except.ok message =>
      match deserializeVariant message with
      | Except.ok value =>
          match i64TryFrom value with
          | some n =>
              { outcome := RtOutcome.ok n, sent := [rttimeUsecMaxCall], post := self }
          | none =>
              { outcome := RtOutcome.panicked, sent := [rttimeUsecMaxCall], post := self }
      | Except.error e =>
          { outcome := RtOutcome.error (RtError.zbus e), sent := [rttimeUsecMaxCall], post := self }
  | Except.error e =>
      { outcome := RtOutcome.error (RtError.zbus e), sent := [rttimeUsecMaxCall], post := self }

/-- The call issued by `make_thread_high_priority`, with its arguments
serialized positionally: `(thread_id: u64, priority: i32)`. -/
def makeThreadHighPriorityCall (thread_id : Nat) (priority : Int) : MethodCall :=
  { destination := some RTKIT_SERVICE_NAME
    path := RTKIT_OBJECT_PATH
    interface := some RTKIT_INTERFACE
    member := "MakeThreadHighPriority"
    args := [DBusValue.u64V thread_id, DBusValue.i32V priority] }

/-- Method `RTKit::make_thread_high_priority` of src/lib.rs: issues the call,
propagates a zbus error with `?`, and otherwise returns `Ok(())` discarding
the reply message. -/
def RTKit.make_thread_high_priority (self : RTKitState)
    (thread_id : Nat) (priority : Int) : CallResult Unit :=
  match self.connection (makeThreadHighPriorityCall thread_id priority) with
  | Except.ok _message =>
      { outcome := RtOutcome.ok ()
        sent := [makeThreadHighPriorityCall thread_id priority], post := self }
  | Except.error e =>
      { outcome := RtOutcome.error (RtError.zbus e)
        sent := [makeThreadHighPriorityCall thread_id priority], post := self }

/-- The call issued by `make_thread_high_priority_with_pid`:
`(process_id: u64, thread_id: u64, priority: i32)`. -/
def makeThreadHighPriorityWithPidCall (process_id thread_id : Nat) (priority : Int) :
    MethodCall :=
  { destination := some RTKIT_SERVICE_NAME
    path := RTKIT_OBJECT_PATH
    interface := some RTKIT_INTERFACE
    member := "MakeThreadHighPriorityWithPID"
    args := [DBusValue.u64V process_id, DBusValue.u64V thread_id, DBusValue.i32V priority] }

/-- Method `RTKit::make_thread_high_priority_with_pid` of src/lib.rs. -/
def RTKit.make_thread_high_priority_with_pid (self : RTKitState)
    (process_id thread_id : Nat) (priority : Int) : CallResult Unit :=
  match self.connection (makeThreadHighPriorityWithPidCall process_id thread_id priority) with
  | Except.ok _message =>
      { outcome := RtOutcome.ok ()
        sent := [makeThreadHighPriorityWithPidCall process_id thread_id priority], post := self }
  | Except.error e =>
      { outcome := RtOutcome.error (RtError.zbus e)
        sent := [makeThreadHighPriorityWithPidCall process_id thread_id priority], post := self }

/-- The call issued by `make_thread_realtime`: `(thread_id: u64, priority: u32)`. -/
def makeThreadRealtimeCall (thread_id : Nat) (priority : Nat) : MethodCall :=
  { destination := some RTKIT_SERVICE_NAME
    path := RTKIT_OBJECT_PATH
    interface := some RTKIT_INTERFACE
    member := "MakeThreadRealtime"
    args := [DBusValue.u64V thread_id, DBusValue.u32V priority] }

/-- Method `RTKit::make_thread_realtime` of src/lib.rs. -/
def RTKit.make_thread_realtime (self : RTKitState)
    (thread_id : Nat) (priority : Nat) : CallResult Unit :=
  match self.connection (makeThreadRealtimeCall thread_id priority) with
  | Except.ok _message =>
      { outcome := RtOutcome.ok ()
        sent := [makeThreadRealtimeCall thread_id priority], post := self }
  | Except.error e =>
      { outcome := RtOutcome.error (RtError.zbus e)
        sent := [makeThreadRealtimeCall thread_id priority], post := self }

/-- The call issued by `make_thread_realtime_with_pid`:
`(process_id: u64, thread_id: u64, priority: u32)`. -/
def makeThreadRealtimeWithPidCall (process_id thread_id : Nat) (priority : Nat) :
    MethodCall :=
  { destination := some RTKIT_SERVICE_NAME
    path := RTKIT_OBJECT_PATH
    interface := some RTKIT_INTERFACE
    member := "MakeThreadRealtimeWithPID"
    args := [DBusValue.u64V process_id, DBusValue.u64V thread_id, DBusValue.u32V priority] }

/-- Method `RTKit::make_thread_realtime_with_pid` of src/lib.rs. -/
def RTKit.make_thread_realtime_with_pid (self : RTKitState)
    (process_id thread_id : Nat) (priority : Nat) : CallResult Unit :=
  match self.connection (makeThreadRealtimeWithPidCall process_id thread_id priority) with
  | Except.ok _message =>
      { outcome := RtOutcome.ok ()
        sent := [makeThreadRealtimeWithPidCall process_id thread_id priority], post := self }
  | Except.error e =>
      { outcome := RtOutcome.error (RtError.zbus e)
        sent := [makeThreadRealtimeWithPidCall process_id thread_id priority], post := self }

/-- Modelled from the spec: the operating system environment behind the two
identity helpers.  The helpers wrap facilities external to the repository — a
raw `gettid` system call and `std::process::id()` — so the OS answers are
modelled from the spec and the platform contracts the source relies on:
"pure local queries of the operating system … no I/O failure modeled",
"return a value greater than zero".  On Linux, `gettid` cannot fail and
returns the positive thread id (a positive value of the C long it is returned
in), and `std::process::id()` returns the process id as an unsigned 32-bit
integer, likewise positive. -/
structure OsEnv : Type where
  tid : Nat
  pid : Nat
  tid_pos : 0 < tid
  tid_lt : tid < 2 ^ 63
  pid_pos : 0 < pid
  pid_lt : pid < 2 ^ 32

/-- Method `RTKit::current_thread_id` of src/lib.rs:
`libc::syscall(libc::SYS_gettid) as u64`.  The `as u64` cast of the signed
syscall return value is reduction modulo `2 ^ 64`.  The function takes no
client state and touches no bus connection. -/
def RTKit.current_thread_id (os : OsEnv) : Nat :=
  os.tid % 2 ^ 64

/-- Method `RTKit::current_process_id` of src/lib.rs:
`std::process::id() as u64`.  The cast widens the unsigned 32-bit process id,
which is reduction modulo `2 ^ 64`.  The function takes no client state and
touches no bus connection. -/
def RTKit.current_process_id (os : OsEnv) : Nat :=
  os.pid % 2 ^ 64

/-- A bus on which the discovery call succeeds but the broker name is absent
from the registered-names list. -/
def busAbsent : Bus :=
  fun _ => Except.ok (MessageBody.namesBody ["org.freedesktop.DBus"])

/-- A bus answering every call with a variant-wrapped 64-bit value that
exceeds the 32-bit range. -/
def busWrongWidth : Bus :=
  fun _ => Except.ok (MessageBody.variantBody (DBusValue.i64V 5000000000))

/-- A bus answering every call with a body that is neither a variant nor a
names list: typed deserialization fails on it. -/
def busMalformed : Bus :=
  fun _ => Except.ok MessageBody.malformed

/-- A bus exposing the broker default property values
`MaxRealtimePriority = 20`, `MinNiceLevel = -15`, `RTTimeUSecMax = 200000`,
with the correct wire widths, and answering action calls with an empty body. -/
def busDefaults : Bus := fun c =>
  if c.args = [DBusValue.strV "org.freedesktop.RealtimeKit1",
               DBusValue.strV "MaxRealtimePriority"] then
    Except.ok (MessageBody.variantBody (DBusValue.i32V 20))
  else if c.args = [DBusValue.strV "org.freedesktop.RealtimeKit1",
                    DBusValue.strV "MinNiceLevel"] then
    Except.ok (MessageBody.variantBody (DBusValue.i32V (-15)))
  else if c.args = [DBusValue.strV "org.freedesktop.RealtimeKit1",
                    DBusValue.strV "RTTimeUSecMax"] then
    Except.ok (MessageBody.variantBody (DBusValue.i64V 200000))
  else
    Except.ok MessageBody.emptyBody

/-- A bus answering every call successfully with an empty reply body. -/
def busOkEmpty : Bus :=
  fun _ => Except.ok MessageBody.emptyBody

/-- Outcome of an action call as a function of the reply the connection
produced: success is ignored, an error is wrapped and propagated. -/
def actionOutcome : Except ZbusError MessageBody → RtOutcome Unit
  | Except.ok _ => RtOutcome.ok ()
  | Except.error e => RtOutcome.error (RtError.zbus e)

/-- Outcome of a property accessor as a function of the reply and of the
numeric conversion used: transport and deserialization errors are wrapped and
propagated, a failed conversion panics (the `.unwrap()`). -/
def propertyOutcome (convert : DBusValue → Option Int) :
    Except ZbusError MessageBody → RtOutcome Int
  | Except.ok m =>
      match deserializeVariant m with
      | Except.ok v =>
          match convert v with
          | some n => RtOutcome.ok n
          | none => RtOutcome.panicked
      | Except.error e => RtOutcome.error (RtError.zbus e)
  | Except.error e => RtOutcome.error (RtError.zbus e)

lemma max_realtime_priority_eq (s : RTKitState) :
    RTKit.max_realtime_priority s =
      { outcome := propertyOutcome i32TryFrom (s.connection maxRealtimePriorityCall)
        sent := [maxRealtimePriorityCall]
        post := s } := by
  cases h1 : s.connection maxRealtimePriorityCall with
  | ok m =>
      cases h2 : deserializeVariant m with
      | ok v =>
          cases h3 : i32TryFrom v <;>
            simp [RTKit.max_realtime_priority, propertyOutcome, h1, h2, h3]
      | error e => simp [RTKit.max_realtime_priority, propertyOutcome, h1, h2]
  | error e => simp [RTKit.max_realtime_priority, propertyOutcome, h1]

lemma min_nice_level_eq (s : RTKitState) :
    RTKit.min_nice_level s =
      { outcome := propertyOutcome i32TryFrom (s.connection minNiceLevelCall)
        sent := [minNiceLevelCall]
        post := s } := by
  cases h1 : s.connection minNiceLevelCall with
  | ok m =>
      cases h2 : deserializeVariant m with
      | ok v =>
          cases h3 : i32TryFrom v <;>
            simp [RTKit.min_nice_level, propertyOutcome, h1, h2, h3]
      | error e => simp [RTKit.min_nice_level, propertyOutcome, h1, h2]
  | error e => simp [RTKit.min_nice_level, propertyOutcome, h1]

lemma rttime_usec_max_eq (s : RTKitState) :
    RTKit.rttime_usec_max s =
      { outcome := propertyOutcome i64TryFrom (s.connection rttimeUsecMaxCall)
        sent := [rttimeUsecMaxCall]
        post := s } := by
  cases h1 : s.connection rttimeUsecMaxCall with
  | ok m =>
      cases h2 : deserializeVariant m with
      | ok v =>
          cases h3 : i64TryFrom v <;>
            simp [RTKit.rttime_usec_max, propertyOutcome, h1, h2, h3]
      | error e => simp [RTKit.rttime_usec_max, propertyOutcome, h1, h2]
  | error e => simp [RTKit.rttime_usec_max, propertyOutcome, h1]

lemma make_thread_high_priority_eq (s : RTKitState) (thread_id : Nat) (priority : Int) :
    RTKit.make_thread_high_priority s thread_id priority =
      { outcome := actionOutcome (s.connection (makeThreadHighPriorityCall thread_id priority))
        sent := [makeThreadHighPriorityCall thread_id priority]
        post := s } := by
  cases h1 : s.connection (makeThreadHighPriorityCall thread_id priority) <;>
    simp [RTKit.make_thread_high_priority, actionOutcome, h1]

lemma make_thread_high_priority_with_pid_eq (s : RTKitState)
    (process_id thread_id : Nat) (priority : Int) :
    RTKit.make_thread_high_priority_with_pid s process_id thread_id priority =
      { outcome := actionOutcome
          (s.connection (makeThreadHighPriorityWithPidCall process_id thread_id priority))
        sent := [makeThreadHighPriorityWithPidCall process_id thread_id priority]
        post := s } := by
  cases h1 : s.connection (makeThreadHighPriorityWithPidCall process_id thread_id priority) <;>
    simp [RTKit.make_thread_high_priority_with_pid, actionOutcome, h1]

lemma make_thread_realtime_eq (s : RTKitState) (thread_id : Nat) (priority : Nat) :
    RTKit.make_thread_realtime s thread_id priority =
      { outcome := actionOutcome (s.connection (makeThreadRealtimeCall thread_id priority))
        sent := [makeThreadRealtimeCall thread_id priority]
        post := s } := by
  cases h1 : s.connection (makeThreadRealtimeCall thread_id priority) <;>
    simp [RTKit.make_thread_realtime, actionOutcome, h1]

lemma make_thread_realtime_with_pid_eq (s : RTKitState)
    (process_id thread_id : Nat) (priority : Nat) :
    RTKit.make_thread_realtime_with_pid s process_id thread_id priority =
      { outcome := actionOutcome
          (s.connection (makeThreadRealtimeWithPidCall process_id thread_id priority))
        sent := [makeThreadRealtimeWithPidCall process_id thread_id priority]
        post := s } := by
  cases h1 : s.connection (makeThreadRealtimeWithPidCall process_id thread_id priority) <;>
    simp [RTKit.make_thread_realtime_with_pid, actionOutcome, h1]

/-- Claim C1 (code bug): `RTKit::new` is claimed (and its own doc comment says)
to fail with `ServiceNotAvailable` when the discovery call succeeds but the
broker name is absent from the registered-names list.  In the source,
`is_rtkit_available(&connection)?;` propagates only the error case of the
`Result` and discards the returned boolean, so on a bus where `ListNames`
succeeds with a list not containing `org.freedesktop.RealtimeKit1`, the
availability probe returns `Ok(false)` and construction nevertheless returns a
client.  No `ServiceNotAvailable` failure exists anywhere in the code. -/
theorem new_succeeds_when_broker_name_absent :
    (is_rtkit_available busAbsent).1 = Except.ok false ∧
    (RTKit.new (Except.ok busAbsent)).1 = Except.ok { connection := busAbsent } :=
  ⟨rfl, rfl⟩

/-- Claim C2 (original, refuted): on a successful remote call whose
variant-wrapped value has the wrong width for the advertised native type — here
a 64-bit value `5000000000`, outside 32-bit range, for the i32 property
`MaxRealtimePriority` — the accessor does not return a `DecodeError` result:
`i32::try_from(&value).unwrap()` panics, i.e. the run terminates abnormally and
in particular does not produce the decode-error result. -/
theorem max_realtime_priority_panics_on_wrong_width :
    (RTKit.max_realtime_priority { connection := busWrongWidth }).outcome =
      RtOutcome.panicked ∧
    (RTKit.max_realtime_priority { connection := busWrongWidth }).outcome ≠
      RtOutcome.error (RtError.zbus ZbusError.variantError) := by
  decide

/-- Claim C2 (amended): for every property accessor, if the remote call
succeeds but the reply body cannot be deserialized as a variant-wrapped value
(the value is absent or the body malformed), the accessor returns the decode
error as a failure result; if the body deserializes but the wrapped value is of
the wrong width or not representable in the advertised native type (the
zvariant conversion fails), the accessor terminates abnormally (the `.unwrap()`
panics) instead of returning a `DecodeError` result.  In neither case is the
value silently truncated, clamped, or defaulted. -/
theorem accessor_decode_failure_behavior (s : RTKitState) (m : MessageBody)
    (v : DBusValue) (e : ZbusError) :
    (s.connection maxRealtimePriorityCall = Except.ok m →
      deserializeVariant m = Except.error e →
      (RTKit.max_realtime_priority s).outcome = RtOutcome.error (RtError.zbus e)) ∧
    (s.connection maxRealtimePriorityCall = Except.ok m →
      deserializeVariant m = Except.ok v → i32TryFrom v = none →
      (RTKit.max_realtime_priority s).outcome = RtOutcome.panicked) ∧
    (s.connection minNiceLevelCall = Except.ok m →
      deserializeVariant m = Except.error e →
      (RTKit.min_nice_level s).outcome = RtOutcome.error (RtError.zbus e)) ∧
    (s.connection minNiceLevelCall = Except.ok m →
      deserializeVariant m = Except.ok v → i32TryFrom v = none →
      (RTKit.min_nice_level s).outcome = RtOutcome.panicked) ∧
    (s.connection rttimeUsecMaxCall = Except.ok m →
      deserializeVariant m = Except.error e →
      (RTKit.rttime_usec_max s).outcome = RtOutcome.error (RtError.zbus e)) ∧
    (s.connection rttimeUsecMaxCall = Except.ok m →
      deserializeVariant m = Except.ok v → i64TryFrom v = none →
      (RTKit.rttime_usec_max s).outcome = RtOutcome.panicked) := by
  refine ⟨?_, ?_, ?_, ?_, ?_, ?_⟩
  · intro h1 h2
    rw [max_realtime_priority_eq]
    simp [propertyOutcome, h1, h2]
  · intro h1 h2 h3
    rw [max_realtime_priority_eq]
    simp [propertyOutcome, h1, h2, h3]
  · intro h1 h2
    rw [min_nice_level_eq]
    simp [propertyOutcome, h1, h2]
  · intro h1 h2 h3
    rw [min_nice_level_eq]
    simp [propertyOutcome, h1, h2, h3]
  · intro h1 h2
    rw [rttime_usec_max_eq]
    simp [propertyOutcome, h1, h2]
  · intro h1 h2 h3
    rw [rttime_usec_max_eq]
    simp [propertyOutcome, h1, h2, h3]

/-- Witness for the amended claim C2, at two concrete buses: one whose reply
body is malformed (decode error returned as a result) and one whose reply
wraps a 64-bit value where 32-bit is expected (panic). -/
theorem accessor_decode_failure_behavior_witness :
    (RTKit.max_realtime_priority { connection := busMalformed }).outcome =
      RtOutcome.error (RtError.zbus ZbusError.variantError) ∧
    (RTKit.min_nice_level { connection := busWrongWidth }).outcome =
      RtOutcome.panicked :=
  ⟨(accessor_decode_failure_behavior { connection := busMalformed }
      MessageBody.malformed (DBusValue.i64V 5000000000) ZbusError.variantError).1
      rfl rfl,
   (accessor_decode_failure_behavior { connection := busWrongWidth }
      (MessageBody.variantBody (DBusValue.i64V 5000000000))
      (DBusValue.i64V 5000000000) ZbusError.variantError).2.2.2.1
      rfl rfl rfl⟩

/-- Claim C3: for every reply whose wrapped value is exactly representable in
the advertised native type — present, of the advertised wire width (`i32` for
`MaxRealtimePriority` and `MinNiceLevel`, `i64` for `RTTimeUSecMax`), hence
convertible — the accessor returns that value unchanged, with no rounding,
truncation, or sign error. -/
theorem accessor_round_trip_fidelity (s : RTKitState) (n : Int) :
    (s.connection maxRealtimePriorityCall =
        Except.ok (MessageBody.variantBody (DBusValue.i32V n)) →
      (RTKit.max_realtime_priority s).outcome = RtOutcome.ok n) ∧
    (s.connection minNiceLevelCall =
        Except.ok (MessageBody.variantBody (DBusValue.i32V n)) →
      (RTKit.min_nice_level s).outcome = RtOutcome.ok n) ∧
    (s.connection rttimeUsecMaxCall =
        Except.ok (MessageBody.variantBody (DBusValue.i64V n)) →
      (RTKit.rttime_usec_max s).outcome = RtOutcome.ok n) := by
  refine ⟨?_, ?_, ?_⟩
  · intro h1
    rw [max_realtime_priority_eq]
    simp [propertyOutcome, h1, deserializeVariant, i32TryFrom]
  · intro h1
    rw [min_nice_level_eq]
    simp [propertyOutcome, h1, deserializeVariant, i32TryFrom]
  · intro h1
    rw [rttime_usec_max_eq]
    simp [propertyOutcome, h1, deserializeVariant, i64TryFrom]

/-- Witness for claim C3: a broker exposing `MaxRealtimePriority = 20`,
`MinNiceLevel = -15`, `RTTimeUSecMax = 200000` yields exactly `20`, `-15`,
and `200000` from the three accessors. -/
theorem accessor_round_trip_fidelity_witness :
    (RTKit.max_realtime_priority { connection := busDefaults }).outcome =
      RtOutcome.ok 20 ∧
    (RTKit.min_nice_level { connection := busDefaults }).outcome =
      RtOutcome.ok (-15) ∧
    (RTKit.rttime_usec_max { connection := busDefaults }).outcome =
      RtOutcome.ok 200000 :=
  ⟨(accessor_round_trip_fidelity { connection := busDefaults } 20).1 rfl,
   (accessor_round_trip_fidelity { connection := busDefaults } (-15)).2.1 rfl,
   (accessor_round_trip_fidelity { connection := busDefaults } 200000).2.2 rfl⟩

/-- Claim C4: for every priority value, including values outside any policy
bounds, each of the four action calls performs no client-side validation: it
always issues the remote call, with the arguments serialized exactly as given,
and its outcome is a function of the connection's reply alone (success on a
reply, the wrapped remote error on an error reply) — never a pre-call
rejection. -/
theorem action_calls_pass_arguments_through (s : RTKitState)
    (process_id thread_id : Nat) (priority : Int) (rt_priority : Nat) :
    ((RTKit.make_thread_high_priority s thread_id priority).sent =
        [makeThreadHighPriorityCall thread_id priority] ∧
      (RTKit.make_thread_high_priority s thread_id priority).outcome =
        actionOutcome (s.connection (makeThreadHighPriorityCall thread_id priority))) ∧
    ((RTKit.make_thread_high_priority_with_pid s process_id thread_id priority).sent =
        [makeThreadHighPriorityWithPidCall process_id thread_id priority] ∧
      (RTKit.make_thread_high_priority_with_pid s process_id thread_id priority).outcome =
        actionOutcome
          (s.connection (makeThreadHighPriorityWithPidCall process_id thread_id priority))) ∧
    ((RTKit.make_thread_realtime s thread_id rt_priority).sent =
        [makeThreadRealtimeCall thread_id rt_priority] ∧
      (RTKit.make_thread_realtime s thread_id rt_priority).outcome =
        actionOutcome (s.connection (makeThreadRealtimeCall thread_id rt_priority))) ∧
    ((RTKit.make_thread_realtime_with_pid s process_id thread_id rt_priority).sent =
        [makeThreadRealtimeWithPidCall process_id thread_id rt_priority] ∧
      (RTKit.make_thread_realtime_with_pid s process_id thread_id rt_priority).outcome =
        actionOutcome
          (s.connection (makeThreadRealtimeWithPidCall process_id thread_id rt_priority))) := by
  rw [make_thread_high_priority_eq, make_thread_high_priority_with_pid_eq,
    make_thread_realtime_eq, make_thread_realtime_with_pid_eq]
  exact ⟨⟨rfl, rfl⟩, ⟨rfl, rfl⟩, ⟨rfl, rfl⟩, ⟨rfl, rfl⟩⟩

/-- Claim C5: every remote operation addresses the broker with the fixed
identity constants: destination `org.freedesktop.RealtimeKit1` and object path
`/org/freedesktop/RealtimeKit1` on all seven operations; the four action calls
name the broker interface `org.freedesktop.RealtimeKit1` and send the method
name and positional argument tuple of the spec's table; the three property
reads go through the standard property-access interface
`org.freedesktop.DBus.Properties` member `Get`, naming the broker interface
`org.freedesktop.RealtimeKit1` and the property as their arguments. -/
theorem operations_use_fixed_identity_constants (s : RTKitState)
    (process_id thread_id : Nat) (priority : Int) (rt_priority : Nat) :
    (RTKit.max_realtime_priority s).sent =
      [{ destination := some "org.freedesktop.RealtimeKit1"
         path := "/org/freedesktop/RealtimeKit1"
         interface := some "org.freedesktop.DBus.Properties"
         member := "Get"
         args := [DBusValue.strV "org.freedesktop.RealtimeKit1",
                  DBusValue.strV "MaxRealtimePriority"] }] ∧
    (RTKit.min_nice_level s).sent =
      [{ destination := some "org.freedesktop.RealtimeKit1"
         path := "/org/freedesktop/RealtimeKit1"
         interface := some "org.freedesktop.DBus.Properties"
         member := "Get"
         args := [DBusValue.strV "org.freedesktop.RealtimeKit1",
                  DBusValue.strV "MinNiceLevel"] }] ∧
    (RTKit.rttime_usec_max s).sent =
      [{ destination := some "org.freedesktop.RealtimeKit1"
         path := "/org/freedesktop/RealtimeKit1"
         interface := some "org.freedesktop.DBus.Properties"
         member := "Get"
         args := [DBusValue.strV "org.freedesktop.RealtimeKit1",
                  DBusValue.strV "RTTimeUSecMax"] }] ∧
    (RTKit.make_thread_high_priority s thread_id priority).sent =
      [{ destination := some "org.freedesktop.RealtimeKit1"
         path := "/org/freedesktop/RealtimeKit1"
         interface := some "org.freedesktop.RealtimeKit1"
         member := "MakeThreadHighPriority"
         args := [DBusValue.u64V thread_id, DBusValue.i32V priority] }] ∧
    (RTKit.make_thread_high_priority_with_pid s process_id thread_id priority).sent =
      [{ destination := some "org.freedesktop.RealtimeKit1"
         path := "/org/freedesktop/RealtimeKit1"
         interface := some "org.freedesktop.RealtimeKit1"
         member := "MakeThreadHighPriorityWithPID"
         args := [DBusValue.u64V process_id, DBusValue.u64V thread_id,
                  DBusValue.i32V priority] }] ∧
    (RTKit.make_thread_realtime s thread_id rt_priority).sent =
      [{ destination := some "org.freedesktop.RealtimeKit1"
         path := "/org/freedesktop/RealtimeKit1"
         interface := some "org.freedesktop.RealtimeKit1"
         member := "MakeThreadRealtime"
         args := [DBusValue.u64V thread_id, DBusValue.u32V rt_priority] }] ∧
    (RTKit.make_thread_realtime_with_pid s process_id thread_id rt_priority).sent =
      [{ destination := some "org.freedesktop.RealtimeKit1"
         path := "/org/freedesktop/RealtimeKit1"
         interface := some "org.freedesktop.RealtimeKit1"
         member := "MakeThreadRealtimeWithPID"
         args := [DBusValue.u64V process_id, DBusValue.u64V thread_id,
                  DBusValue.u32V rt_priority] }] := by
  rw [max_realtime_priority_eq, min_nice_level_eq, rttime_usec_max_eq,
    make_thread_high_priority_eq, make_thread_high_priority_with_pid_eq,
    make_thread_realtime_eq, make_thread_realtime_with_pid_eq]
  exact ⟨rfl, rfl, rfl, rfl, rfl, rfl, rfl⟩

/-- Claim C7: every invocation of a property accessor and of an action call
issues exactly one remote round trip on the connection — never zero (answered
from a cache), never more than one (retries) — so two successive reads of the
same property each issue their own remote call. -/
theorem every_operation_issues_exactly_one_call (s : RTKitState)
    (process_id thread_id : Nat) (priority : Int) (rt_priority : Nat) :
    (RTKit.max_realtime_priority s).sent.length = 1 ∧
    (RTKit.min_nice_level s).sent.length = 1 ∧
    (RTKit.rttime_usec_max s).sent.length = 1 ∧
    (RTKit.make_thread_high_priority s thread_id priority).sent.length = 1 ∧
    (RTKit.make_thread_high_priority_with_pid s process_id thread_id priority).sent.length = 1 ∧
    (RTKit.make_thread_realtime s thread_id rt_priority).sent.length = 1 ∧
    (RTKit.make_thread_realtime_with_pid s process_id thread_id rt_priority).sent.length = 1 := by
  rw [max_realtime_priority_eq, min_nice_level_eq, rttime_usec_max_eq,
    make_thread_high_priority_eq, make_thread_high_priority_with_pid_eq,
    make_thread_realtime_eq, make_thread_realtime_with_pid_eq]
  exact ⟨rfl, rfl, rfl, rfl, rfl, rfl, rfl⟩

/-- Claim C8: every operation on a constructed client leaves the client state
unchanged — the wrapped connection is never replaced, reset, or closed by any
property read or action call, whatever the reply was, so the client remains
usable afterwards. -/
theorem operations_leave_client_state_unchanged (s : RTKitState)
    (process_id thread_id : Nat) (priority : Int) (rt_priority : Nat) :
    (RTKit.max_realtime_priority s).post = s ∧
    (RTKit.min_nice_level s).post = s ∧
    (RTKit.rttime_usec_max s).post = s ∧
    (RTKit.make_thread_high_priority s thread_id priority).post = s ∧
    (RTKit.make_thread_high_priority_with_pid s process_id thread_id priority).post = s ∧
    (RTKit.make_thread_realtime s thread_id rt_priority).post = s ∧
    (RTKit.make_thread_realtime_with_pid s process_id thread_id rt_priority).post = s := by
  rw [max_realtime_priority_eq, min_nice_level_eq, rttime_usec_max_eq,
    make_thread_high_priority_eq, make_thread_high_priority_with_pid_eq,
    make_thread_realtime_eq, make_thread_realtime_with_pid_eq]
  exact ⟨rfl, rfl, rfl, rfl, rfl, rfl, rfl⟩

/-- Claim C9: for every action call, when the remote invocation succeeds the
function returns unit, regardless of the content of the reply message body —
the payload is bound to a discarded variable and can never cause the call to
fail. -/
theorem action_reply_payload_is_ignored (s : RTKitState)
    (process_id thread_id : Nat) (priority : Int) (rt_priority : Nat)
    (body : MessageBody) :
    (s.connection (makeThreadHighPriorityCall thread_id priority) = Except.ok body →
      (RTKit.make_thread_high_priority s thread_id priority).outcome = RtOutcome.ok ()) ∧
    (s.connection (makeThreadHighPriorityWithPidCall process_id thread_id priority) =
        Except.ok body →
      (RTKit.make_thread_high_priority_with_pid s process_id thread_id priority).outcome =
        RtOutcome.ok ()) ∧
    (s.connection (makeThreadRealtimeCall thread_id rt_priority) = Except.ok body →
      (RTKit.make_thread_realtime s thread_id rt_priority).outcome = RtOutcome.ok ()) ∧
    (s.connection (makeThreadRealtimeWithPidCall process_id thread_id rt_priority) =
        Except.ok body →
      (RTKit.make_thread_realtime_with_pid s process_id thread_id rt_priority).outcome =
        RtOutcome.ok ()) := by
  refine ⟨?_, ?_, ?_, ?_⟩
  · intro h1
    rw [make_thread_high_priority_eq]
    simp [actionOutcome, h1]
  · intro h1
    rw [make_thread_high_priority_with_pid_eq]
    simp [actionOutcome, h1]
  · intro h1
    rw [make_thread_realtime_eq]
    simp [actionOutcome, h1]
  · intro h1
    rw [make_thread_realtime_with_pid_eq]
    simp [actionOutcome, h1]

/-- Witness for claim C9, on a bus answering every call successfully with an
empty body, at concrete identifiers and priorities (one of them far outside
any policy bound). -/
theorem action_reply_payload_is_ignored_witness :
    (RTKit.make_thread_high_priority { connection := busOkEmpty } 7 (-100)).outcome =
      RtOutcome.ok () ∧
    (RTKit.make_thread_high_priority_with_pid { connection := busOkEmpty } 3 7 (-100)).outcome =
      RtOutcome.ok () ∧
    (RTKit.make_thread_realtime { connection := busOkEmpty } 7 99).outcome =
      RtOutcome.ok () ∧
    (RTKit.make_thread_realtime_with_pid { connection := busOkEmpty } 3 7 99).outcome =
      RtOutcome.ok () :=
  ⟨(action_reply_payload_is_ignored { connection := busOkEmpty } 3 7 (-100) 99
      MessageBody.emptyBody).1 rfl,
   (action_reply_payload_is_ignored { connection := busOkEmpty } 3 7 (-100) 99
      MessageBody.emptyBody).2.1 rfl,
   (action_reply_payload_is_ignored { connection := busOkEmpty } 3 7 (-100) 99
      MessageBody.emptyBody).2.2.1 rfl,
   (action_reply_payload_is_ignored { connection := busOkEmpty } 3 7 (-100) 99
      MessageBody.emptyBody).2.2.2 rfl⟩

/-- Claim C6: the identity helpers are total functions of the operating-system
environment alone — they take no client state and no bus connection, and
cannot fail — and each returns the queried OS identifier, a value strictly
greater than zero. -/
theorem identity_helpers_local_and_positive (os : OsEnv) :
    0 < RTKit.current_thread_id os ∧
    RTKit.current_thread_id os = os.tid ∧
    0 < RTKit.current_process_id os ∧
    RTKit.current_process_id os = os.pid := by
  have htid : os.tid % 2 ^ 64 = os.tid :=
    Nat.mod_eq_of_lt (lt_trans os.tid_lt (by norm_num))
  have hpid : os.pid % 2 ^ 64 = os.pid :=
    Nat.mod_eq_of_lt (lt_trans os.pid_lt (by norm_num))
  refine ⟨?_, ?_, ?_, ?_⟩
  · unfold RTKit.current_thread_id
    rw [htid]
    exact os.tid_pos
  · unfold RTKit.current_thread_id
    exact htid
  · unfold RTKit.current_process_id
    rw [hpid]
    exact os.pid_pos
  · unfold RTKit.current_process_id
    exact hpid

/-- Claim C10: `current_process_id` always returns a value strictly below
`2 ^ 32`: the OS process identifier is an unsigned 32-bit integer and the
`as u64` widening is lossless, so no truncation or wraparound is visible. -/
theorem current_process_id_fits_in_32_bits (os : OsEnv) :
    RTKit.current_process_id os < 2 ^ 32 := by
  unfold RTKit.current_process_id
  calc os.pid % 2 ^ 64 ≤ os.pid := Nat.mod_le _ _
    _ < 2 ^ 32 := os.pid_lt
